import Mathlib

/-!
Shallow embedding of pytype's abstract attribute handler
(`pytype/attribute.py`, class `AbstractAttributeHandler`).

The binding graph (`pytype.typegraph.cfg`), the abstract value model
(`pytype.abstract`) and the virtual machine are external collaborators of
the file under verification.  They are embedded as follows, from the spec:

* a `Node` is an opaque program point; a `Binding` pairs a value with the
  origin nodes at which it was assigned; a binding is visible at a node if
  that node is reachable from (or equal to) one of its origin nodes;
* a `Variable` is a mutable container of bindings; variables live in a
  heap (`State.vars`) indexed by `VarId` so that in-place mutation
  (`PasteVariable`, `AddBinding`) and object identity are faithful;
* abstract values live in a heap (`State.objs`) indexed by `ObjId`; the
  closed set of value variants is the `Kind` enumeration, and the
  `isinstance` superclass tests of the source are the `Kind.*` predicates;
* everything the handler merely calls back into (function calls, lazy
  member loading, annotation initialization, ...) is a field of `Env`.
-/

namespace PytypeAttr

abbrev Node := Nat
abbrev ObjId := Nat
abbrev VarId := Nat
abbrev AttrName := String

/-- A cfg.Binding: a value together with the origin nodes where it was
assigned (spec: "Binding: (value, origin-node-set) pair; immutable"). -/
structure Binding where
  data : ObjId
  origins : List Node
deriving DecidableEq, Repr

/-- The closed set of abstract-value variants the handler dispatches over
(the `isinstance` targets of `get_attribute` / `set_attribute`).
`AnnotClass` stands for the abstract.AnnotationClass family: a BaseValue
that is none of the variants the write path handles. -/
inductive Kind
  | Empty
  | Module
  | StaticMethod
  | ClassMethod
  | Instance
  | InterpreterClass
  | PyTDClass
  | ParameterizedClass
  | InterpreterFunction
  | PyTDFunction
  | SignedFunction
  | Property
  | PropertyInstance
  | BoundFunction
  | Unsolvable
  | Unknown
  | TypeParameterInstance
  | Union
  | SuperInstance
  | Super
  | Overlay
  | AnnotClass
deriving DecidableEq, Repr

/-- Python class name of a variant, for the NotImplementedError message. -/
def Kind.pyName : Kind → String
  | .Empty => "Empty"
  | .Module => "Module"
  | .StaticMethod => "StaticMethod"
  | .ClassMethod => "ClassMethod"
  | .Instance => "Instance"
  | .InterpreterClass => "InterpreterClass"
  | .PyTDClass => "PyTDClass"
  | .ParameterizedClass => "ParameterizedClass"
  | .InterpreterFunction => "InterpreterFunction"
  | .PyTDFunction => "PyTDFunction"
  | .SignedFunction => "SignedFunction"
  | .Property => "Property"
  | .PropertyInstance => "PropertyInstance"
  | .BoundFunction => "BoundFunction"
  | .Unsolvable => "Unsolvable"
  | .Unknown => "Unknown"
  | .TypeParameterInstance => "TypeParameterInstance"
  | .Union => "Union"
  | .SuperInstance => "SuperInstance"
  | .Super => "Super"
  | .Overlay => "Overlay"
  | .AnnotClass => "AnnotClass"

/-- isinstance(v, abstract.Function): the plain callable variants. -/
def Kind.isFunction : Kind → Bool
  | .InterpreterFunction | .PyTDFunction | .SignedFunction | .Property => true
  | _ => false

/-- isinstance(v, class_mixin.Class). -/
def Kind.isClass : Kind → Bool
  | .InterpreterClass | .PyTDClass | .ParameterizedClass => true
  | _ => false

/-- isinstance(v, abstract.Instance) (instances proper; Module derives
Instance in the abstract value model). -/
def Kind.isInstance : Kind → Bool
  | .Instance | .Module => true
  | _ => false

/-- isinstance(v, abstract.SimpleValue): every variant carrying a member
mapping.  BoundFunction, Unknown, Unsolvable, Empty, Union,
TypeParameterInstance, SuperInstance, Super and ParameterizedClass derive
BaseValue directly (the dispatch order of the source is only meaningful
under this hierarchy). -/
def Kind.isSimpleValue : Kind → Bool
  | .Instance | .Module | .InterpreterClass | .PyTDClass
  | .InterpreterFunction | .PyTDFunction | .SignedFunction
  | .Property | .PropertyInstance
  | .StaticMethod | .ClassMethod => true
  | _ => false

/-- isinstance(v, abstract.AMBIGUOUS_OR_EMPTY). -/
def Kind.isAmbiguousOrEmpty : Kind → Bool
  | .Unknown | .Unsolvable | .Empty => true
  | _ => false

/-- An abstract value.  One record covers every variant (Python objects
are duck-typed); each variant reads only its own fields. -/
structure Obj where
  kind : Kind := .Empty
  /-- the value's class (`obj.cls`). -/
  cls : ObjId := 0
  /-- linearized method resolution order (classes only). -/
  mro : List ObjId := []
  /-- the member mapping; values are variables in the variable heap. -/
  members : List (AttrName × VarId) := []
  /-- `__slots__` declaration; `none` means no slot restriction. -/
  slots : Option (List AttrName) := none
  fullName : String := ""
  maybeMissingMembers : Bool := false
  /-- isinstance(obj, mixin.LazyMembers). -/
  lazyMembers : Bool := false
  /-- BoundFunction.underlying. -/
  underlying : ObjId := 0
  /-- StaticMethod.method / ClassMethod.method. -/
  method : ObjId := 0
  /-- Union.options. -/
  options : List ObjId := []
  /-- TypeParameterInstance.instance (the owning instance). -/
  tpiInstance : ObjId := 0
  /-- TypeParameterInstance.name (the parameter name). -/
  tpiName : AttrName := ""
  /-- whether TypeParameterInstance.param has constraints or a bound. -/
  tpiConstrained : Bool := false
  /-- ParameterizedClass.base_cls. -/
  baseCls : ObjId := 0
  /-- the official name set on writes to the frame's globals. -/
  officialName : Option AttrName := none
  /-- the class's annotations dict: name to "is the type formal". -/
  annots : List (AttrName × Bool) := []
  /-- instance type parameters (`get_instance_type_parameter`). -/
  instParams : List (AttrName × VarId) := []
  /-- function `__defaults__` state (`set_function_defaults`). -/
  defaults : Option VarId := none
  /-- SuperInstance.super_obj. -/
  superObj : Option ObjId := none
  /-- SuperInstance.super_cls. -/
  superCls : ObjId := 0
deriving Repr

/-- The mutable world: the object heap, the variable heap, the fresh
variable counter, and the error log of `vm.errorlog.not_writable`. -/
structure State where
  objs : ObjId → Obj
  vars : VarId → List Binding
  nextVar : VarId := 0
  errors : List (ObjId × AttrName) := []

/-- Pointwise function update on the heaps. -/
def upd {α : Type} (f : Nat → α) (k : Nat) (a : α) : Nat → α :=
  fun x => if x = k then a else f x

def State.updObj (s : State) (o : ObjId) (f : Obj → Obj) : State :=
  { s with objs := upd s.objs o (f (s.objs o)) }

def State.setVar (s : State) (v : VarId) (bs : List Binding) : State :=
  { s with vars := upd s.vars v bs }

/-- program.NewVariable(): allocate a fresh empty variable. -/
def newVar (s : State) : State × VarId :=
  ({ s with nextVar := s.nextVar + 1
            vars := upd s.vars s.nextVar [] }, s.nextVar)

/-- Variable.AddBinding(data, sources, where): append a binding assigned
at `where` (source sets are abstracted into origin nodes, per the spec's
reading of a Binding as a (value, origin-node-set) pair). -/
def addBinding (s : State) (v : VarId) (d : ObjId) (node : Node) : State :=
  s.setVar v (s.vars v ++ [⟨d, [node]⟩])

/-- Variable.PasteVariable(src, where?): append a copy of src's bindings,
re-assigned at `where` when given. -/
def pasteVariable (s : State) (dst : VarId) (src : VarId) (whereNode : Option Node) : State :=
  s.setVar dst (s.vars dst ++ (s.vars src).map (fun b =>
    match whereNode with
    | some n => { b with origins := [n] }
    | none => b))

/-- Variable.AssignToNewVariable(node): fresh variable holding the same
data, bound at `node`. -/
def varAssignToNewVar (s : State) (src : VarId) (node : Node) : State × VarId :=
  let (s, v) := newVar s
  (s.setVar v ((s.vars src).map (fun b => { b with origins := [node] })), v)

/-- Binding.AssignToNewVariable(node?): fresh variable holding this
binding's data (at `node` when given, else at the binding's origins). -/
def bindingAssignToNewVar (s : State) (b : Binding) (node : Option Node) : State × VarId :=
  let (s, v) := newVar s
  (s.setVar v [⟨b.data, match node with | some n => [n] | none => b.origins⟩], v)

/-- value.to_variable(node): fresh variable holding one value at node. -/
def objToVar (s : State) (d : ObjId) (node : Node) : State × VarId :=
  let (s, v) := newVar s
  (addBinding s v d node, v)

/-- External collaborators (binding graph, virtual machine, converter,
annotation utilities, overlays), per spec section 6. -/
structure Env where
  /-- node reachability of the binding graph (reflexive by intent). -/
  reach : Node → Node → Bool
  /-- vm.join_cfg_nodes. -/
  joinNodes : List Node → Node
  rootNode : Node := 0
  objectType : ObjId
  typeType : ObjId
  superType : ObjId
  unsolvable : ObjId
  emptyObj : ObjId
  noneObj : ObjId
  moduleType : ObjId
  /-- vm.frame.f_globals when a frame is active. -/
  frameGlobals : Option ObjId := none
  /-- options.module_name. -/
  optionsModuleName : Option String := none
  /-- function.call_function(vm, node, funcVar, Args(posargs)). -/
  callFunction : State → Node → VarId → List VarId → State × Node × VarId
  /-- convert.constant_to_var. -/
  constantToVar : State → Node → AttrName → State × VarId
  /-- value.get_special_attribute(node, name, valself). -/
  getSpecial : State → Node → ObjId → AttrName → Option Binding → Option VarId
  /-- mixin.LazyMembers.load_lazy_attribute(name, subst). -/
  loadLazyAttr : State → ObjId → AttrName → Option Binding → State
  /-- PyTDClass.convert_as_instance_attribute(name, obj). -/
  convertAsInstanceAttr : State → ObjId → AttrName → ObjId → State × Option VarId
  /-- value.property_get(selfVar, is_class). -/
  propertyGet : State → Node → ObjId → VarId → Bool → State × ObjId
  /-- Property.call(node, None, None). -/
  propertyCall : State → Node → ObjId → State × Node × VarId
  /-- annotation_utils.init_annotation for a declared-but-unset name. -/
  initAnnot : State → Node → AttrName → State × VarId
  /-- the formal-type branch: substitute class-scoped parameters from the
  self binding, then init_annotation. -/
  initAnnotFormal : State → Node → AttrName → Binding → State × VarId
  /-- TypeParameter.instantiate. -/
  instantiateParam : State → Node → ObjId → State × VarId
  /-- Module.get_submodule(node, name). -/
  getSubmodule : State → Node → ObjId → AttrName → Option VarId
  /-- convert.merge_classes. -/
  mergeClasses : State → List ObjId → ObjId
  /-- Overlay.get_module(name). -/
  getModule : State → ObjId → AttrName → ObjId

/-- A binding is visible at a node if the node is reachable from one of
its origins (spec section 3). -/
def Binding.IsVisible (env : Env) (b : Binding) (n : Node) : Bool :=
  b.origins.any (fun o => env.reach o n)

/-- Variable.Bindings(node): the bindings visible at the node (the spec
gives one reachability-based visibility rule for both strictness modes). -/
def visibleBindings (env : Env) (s : State) (v : VarId) (n : Node) : List Binding :=
  (s.vars v).filter (fun b => b.IsVisible env n)

/-- obj.members lookup. -/
def lookupMember (s : State) (o : ObjId) (name : AttrName) : Option VarId :=
  (s.objs o).members.lookup name

/-- obj.members[name] = v (insert or replace). -/
def setMemberMap (s : State) (o : ObjId) (name : AttrName) (v : VarId) : State :=
  s.updObj o (fun ob =>
    { ob with members :=
        if (ob.members.lookup name).isSome
        then ob.members.map (fun p => if p.1 = name then (name, v) else p)
        else (name, v) :: ob.members })

/-- vm.new_unsolvable(node). -/
def new_unsolvable (env : Env) (s : State) (node : Node) : State × VarId :=
  let (s, v) := newVar s
  (addBinding s v env.unsolvable node, v)

/-- Modelled from the spec: vm.join_variables (external virtual machine
helper) joins the successful branches' results into one fresh variable,
re-assigned at the join node. -/
def join_variables (s : State) (node : Node) (rs : List VarId) : State × VarId :=
  let (s, v) := newVar s
  (rs.foldl (fun s r => pasteVariable s v r (some node)) s, v)

/-- abstract_utils.equivalent_to(binding, cls): modelled from the spec,
"selfBinding denotes the class object itself". -/
def equivalentTo (b : Binding) (c : ObjId) : Bool :=
  b.data = c

/-- Whether a character list begins with two underscores. -/
def beginsWithUU : List Char → Bool
  | '_' :: '_' :: _ => true
  | _ => false

/-- self._computable(name): dunder names (starting and ending with a
double underscore) are not routed through computed attribute hooks. -/
def computable (name : AttrName) : Bool :=
  !(beginsWithUU name.data && beginsWithUU name.data.reverse)

/-- The recursive read entry point, threaded through the helpers as a
callback (it stands for `self.get_attribute` one fuel level down). -/
abbrev GetAttr := State → Node → ObjId → AttrName → Option Binding → State × Node × Option VarId

/-- Instance.get_instance_type_parameter(name).bindings (the accessor
returns an empty variable when the parameter has no binding yet). -/
def instTypeParamBindings (s : State) (o : ObjId) (name : AttrName) : List Binding :=
  match (s.objs o).instParams.lookup name with
  | some v => s.vars v
  | none => []

/-- The body of the `for binding in bindings` loop of `_filter_var`;
the Python loop iterates a list that it extends while iterating (the
recursively expanded type parameter instances), hence the worklist and
the fuel. -/
def filter_var_loop (env : Env) : Nat → State → Node → List Binding → VarId → State × VarId
  | 0, s, _, _, ret => (s, ret)
  | _ + 1, s, _, [], ret => (s, ret)
  | f + 1, s, node, b :: rest, ret =>
    let val := b.data
    if (s.objs val).kind = .TypeParameterInstance then
      let pbs := instTypeParamBindings s (s.objs val).tpiInstance (s.objs val).tpiName
      let varBindings := pbs.filter (fun bb => bb.IsVisible env node)
      if varBindings ≠ [] then
        filter_var_loop env f s node (rest ++ varBindings) ret
      else if (s.objs val).tpiConstrained then
        let (s, iv) := env.instantiateParam s node val
        filter_var_loop env f (pasteVariable s ret iv none) node rest ret
      else
        filter_var_loop env f (addBinding s ret env.emptyObj node) node rest ret
    else
      filter_var_loop env f (addBinding s ret val node) node rest ret

/-- self._filter_var(node, var): keep only the bindings visible at the
node, expanding type parameter instances; return the variable itself when
nothing needs filtering, and absent when nothing survives. -/
def _filter_var (env : Env) (fuel : Nat) (s : State) (node : Node) (var : VarId) : State × Option VarId :=
  let bindings := (s.vars var).filter (fun b => b.IsVisible env node)
  if bindings = [] then (s, none)
  else if bindings.length = (s.vars var).length ∧
          bindings.any (fun b => (s.objs b.data).kind == .TypeParameterInstance) = false then
    (s, some var)
  else
    let (s, ret) := newVar s
    let (s, ret) := filter_var_loop env fuel s node bindings ret
    if s.vars ret = [] then (s, none) else (s, some ret)

/-- The `for base in obj.cls.mro` loop of
`_maybe_load_as_instance_attribute`. -/
def mlia_loop (env : Env) (node : Node) (obj : ObjId) (name : AttrName) : State → List ObjId → State
  | s, [] => s
  | s, b :: rest =>
    let base := if (s.objs b).kind = .ParameterizedClass then (s.objs b).baseCls else b
    if (s.objs base).kind = .PyTDClass then
      match env.convertAsInstanceAttr s base name obj with
      | (s, some var) =>
        match lookupMember s obj name with
        | some mv => pasteVariable s mv var (some node)
        | none => setMemberMap s obj name var
      | (s, none) => mlia_loop env node obj name s rest
    else mlia_loop env node obj name s rest

/-- self._maybe_load_as_instance_attribute(node, obj, name). -/
def _maybe_load_as_instance_attribute (env : Env) (s : State) (node : Node) (obj : ObjId) (name : AttrName) : State :=
  if (s.objs (s.objs obj).cls).kind.isClass = false then s
  else mlia_loop env node obj name s (s.objs (s.objs obj).cls).mro

/-- self._get_member(node, obj, name, valself): load lazy members, then
lazily populate instance attributes on a first empty touch, then return
the member if it has bindings visible at the node. -/
def _get_member (env : Env) (s : State) (node : Node) (obj : ObjId) (name : AttrName) (valself : Option Binding) : State × Option VarId :=
  let s := if (s.objs obj).lazyMembers then env.loadLazyAttr s obj name valself else s
  let needLoad := (s.objs obj).kind.isInstance &&
    (match lookupMember s obj name with
     | none => true
     | some v => s.vars v == [])
  let s := if needLoad then _maybe_load_as_instance_attribute env s node obj name else s
  match lookupMember s obj name with
  | some v => if visibleBindings env s v node ≠ [] then (s, some v) else (s, none)
  | none => (s, none)

/-- The `for base in obj.mro` annotation loop at the end of
`_get_attribute`: a declared-but-unset field yields a placeholder of its
declared type; a formal (class-scoped generic) declaration re-initializes
even a previously found attribute. -/
def annot_loop (env : Env) (s : State) (node : Node) (name : AttrName) (valself : Option Binding) : List ObjId → Option VarId → State × Option VarId
  | [], attr => (s, attr)
  | b :: rest, attr =>
    if (s.objs b).kind ≠ .InterpreterClass then (s, attr)
    else if (s.objs b).annots = [] then annot_loop env s node name valself rest attr
    else
      match (s.objs b).annots.lookup name with
      | none => annot_loop env s node name valself rest attr
      | some formal =>
        match valself, formal with
        | some vs, true =>
          let (s, a) := env.initAnnotFormal s node name vs
          (s, some a)
        | _, _ =>
          match attr with
          | none => let (s, a) := env.initAnnot s node name; (s, some a)
          | some _ => (s, attr)

/-- self._should_look_for_submodule(module, attr_var). -/
def _should_look_for_submodule (env : Env) (s : State) (module : ObjId) (attrVar : Option VarId) : Bool :=
  match attrVar with
  | none => true
  | some v =>
    let datas := (s.vars v).map (fun b => b.data)
    let attrCls := env.mergeClasses s datas
    if attrCls = env.moduleType ∧ datas.any (fun a => (s.objs a).kind == .Module) = false then true
    else if env.optionsModuleName = some ((s.objs module).fullName ++ ".__init__") ∧
            datas = [env.unsolvable] then true
    else false

/-- self._get_attribute_flat(node, cls, name, valself): flat (non-MRO)
retrieval; unwraps parameterized classes, reads the member mapping of a
class and filters it, and falls back to a full read on Unknown or
Unsolvable values. -/
def _get_attribute_flat (env : Env) (ga : GetAttr) : Nat → State → Node → ObjId → AttrName → Option Binding → State × Node × Option VarId
  | 0, s, node, _, _, _ => (s, node, none)
  | f + 1, s, node, cls, name, valself =>
    if (s.objs cls).kind = .ParameterizedClass then
      _get_attribute_flat env ga f s node (s.objs cls).baseCls name valself
    else if (s.objs cls).kind.isClass then
      let (s, attr) := _get_member env s node cls name valself
      match attr with
      | some a =>
        let (s, fa) := _filter_var env f s node a
        (s, node, fa)
      | none => (s, node, none)
    else if (s.objs cls).kind = .Unknown ∨ (s.objs cls).kind = .Unsolvable then
      ga s node cls name none
    else (s, node, none)

/-- The `for varval in var.bindings` half of `_lookup_from_mro`: bind each
found value to self (property_get), invoke computed properties, and add
the final values to `ret` (source sets are abstracted into origin nodes). -/
def mro_add_bindings (env : Env) (cls base : ObjId) (valself : Option Binding) (ret : VarId) : State → Node → List Binding → State × Node
  | s, node, [] => (s, node)
  | s, node, vb :: rest =>
    let value := vb.data
    match valself with
    | some vs =>
      let (s, value) :=
        if ((s.objs value).kind == .PyTDFunction && (s.objs base).kind == .InterpreterClass) = false then
          let (s, selfVar) := bindingAssignToNewVar s vs (some node)
          env.propertyGet s node value selfVar (equivalentTo vs cls)
        else (s, value)
      if (s.objs value).kind = .Property then
        let (s, node, rv) := env.propertyCall s node value
        let finals := (s.vars rv).map (fun bb => bb.data)
        let s := finals.foldl (fun s fv => addBinding s ret fv node) s
        mro_add_bindings env cls base valself ret s node rest
      else
        mro_add_bindings env cls base valself ret (addBinding s ret value node) node rest
    | none =>
      mro_add_bindings env cls base valself ret (addBinding s ret value node) node rest

/-- The `for base in cls.mro` loop of `_lookup_from_mro`: skip the skip
set, consult the special-attribute hook then flat retrieval, pass over a
base whose retrieval yields no bindings, and stop at the first base that
yields some. -/
def lookup_from_mro_loop (env : Env) (ga : GetAttr) (fuel : Nat) (cls : ObjId) (name : AttrName) (valself : Option Binding) (skip : List ObjId) (ret : VarId) : State → Node → List ObjId → State × VarId
  | s, _, [] => (s, ret)
  | s, node, base :: rest =>
    if skip.contains base then
      lookup_from_mro_loop env ga fuel cls name valself skip ret s node rest
    else
      let (s, node, var?) :=
        match env.getSpecial s node base name valself with
        | some v => (s, node, some v)
        | none => _get_attribute_flat env ga fuel s node base name valself
      match var? with
      | none => lookup_from_mro_loop env ga fuel cls name valself skip ret s node rest
      | some v =>
        if s.vars v = [] then
          lookup_from_mro_loop env ga fuel cls name valself skip ret s node rest
        else
          let (s, _) := mro_add_bindings env cls base valself ret s node (s.vars v)
          (s, ret)

/-- self._lookup_from_mro(node, cls, name, valself, skip). -/
def _lookup_from_mro (env : Env) (ga : GetAttr) (fuel : Nat) (s : State) (node : Node) (cls : ObjId) (name : AttrName) (valself : Option Binding) (skip : List ObjId) : State × VarId :=
  if (s.objs cls).kind = .Unknown ∨ (s.objs cls).kind = .Unsolvable then
    new_unsolvable env s node
  else
    let (s, ret) := newVar s
    lookup_from_mro_loop env ga fuel cls name valself skip ret s node (s.objs cls).mro

/-- self._get_attribute_computed(node, cls, name, valself, compute_function):
call the interception or last-resort hook when one is defined in the MRO
outside builtins.object, for a bound, non-dunder, non-module read. -/
def _get_attribute_computed (env : Env) (ga : GetAttr) (fuel : Nat) (s : State) (node : Node) (cls : ObjId) (name : AttrName) (valself : Option Binding) (computeFn : AttrName) : State × Node × Option VarId :=
  match valself with
  | some vs =>
    if (!((s.objs vs.data).kind == .Module) && computable name) then
      let (s, attrVar) := _lookup_from_mro env ga fuel s node cls computeFn valself [env.objectType]
      if s.vars attrVar ≠ [] then
        let (s, nameVar) := env.constantToVar s node name
        let (s, n2, rv) := env.callFunction s node attrVar [nameVar]
        (s, n2, some rv)
      else (s, node, none)
    else (s, node, none)
  | none => (s, node, none)

/-- The `for v in attr.bindings` descriptor loop of
`_lookup_from_mro_and_handle_descriptors`. -/
def desc_loop (env : Env) (ga : GetAttr) (cls : ObjId) (valself : Option Binding) (result : VarId) (node : Node) : State → List Binding → List Node → State × List Node
  | s, [], nodes => (s, nodes)
  | s, v :: rest, nodes =>
    let value := v.data
    let (s, n2, getter) :=
      if ((s.objs value).kind == .PropertyInstance &&
          (match valself with | some vs => vs.data == cls | none => false)) then
        (s, node, none)
      else
        ga s node value "__get__" (some v)
    match getter with
    | some g =>
      let (s, selfArg) :=
        match valself with
        | some vs =>
          if vs.data ≠ cls then bindingAssignToNewVar s vs none
          else objToVar s env.noneObj node
        | none => objToVar s env.noneObj node
      let (s, clsVar) := objToVar s cls node
      let (s, n2, getResult) := env.callFunction s n2 g [selfArg, clsVar]
      let s := (s.vars getResult).foldl (fun s gb => addBinding s result gb.data n2) s
      desc_loop env ga cls valself result node s rest (nodes ++ [n2])
    | none =>
      desc_loop env ga cls valself result node (addBinding s result value n2) rest (nodes ++ [n2])

/-- self._lookup_from_mro_and_handle_descriptors(node, cls, name, valself,
skip). -/
def _lookup_from_mro_and_handle_descriptors (env : Env) (ga : GetAttr) (fuel : Nat) (s : State) (node : Node) (cls : ObjId) (name : AttrName) (valself : Option Binding) (skip : List ObjId) : State × Node × Option VarId :=
  let (s, attr) := _lookup_from_mro env ga fuel s node cls name valself skip
  if s.vars attr = [] then (s, node, none)
  else if (s.objs cls).kind = .InterpreterClass then
    let (s, result) := newVar s
    let (s, nodes) := desc_loop env ga cls valself result node s (s.vars attr) []
    if nodes ≠ [] then (s, env.joinNodes nodes, some result)
    else (s, node, some attr)
  else (s, node, some attr)

/-- self._get_attribute(node, obj, cls, name, valself): the shared core —
interception hook first, then the object's own storage, then the
maybe-missing-members placeholder, then the class and the last-resort
hook, then declared annotations, then visibility filtering. -/
def _get_attribute (env : Env) (ga : GetAttr) (fuel : Nat) (s : State) (node : Node) (obj : ObjId) (cls? : Option ObjId) (name : AttrName) (valself : Option Binding) : State × Node × Option VarId :=
  let (s, node, attr) :=
    match cls? with
    | some c => _get_attribute_computed env ga fuel s node c name valself "__getattribute__"
    | none => (s, node, none)
  let (s, node, attr) :=
    match attr with
    | some _ => (s, node, attr)
    | none =>
      if (s.objs obj).kind.isClass then
        _lookup_from_mro_and_handle_descriptors env ga fuel s node obj name valself []
      else
        let (s, a) := _get_member env s node obj name valself
        (s, node, a)
  let (s, attr) :=
    match attr with
    | none =>
      if (s.objs obj).maybeMissingMembers then
        let (s, v) := new_unsolvable env s node
        (s, some v)
      else (s, none)
    | some _ => (s, attr)
  let (s, node, attr) :=
    match attr, cls? with
    | none, some c =>
      let (s, node, a) := ga s node c name valself
      match a with
      | none => _get_attribute_computed env ga fuel s node c name valself "__getattr__"
      | some _ => (s, node, a)
    | _, _ => (s, node, attr)
  let (s, attr) := annot_loop env s node name valself (s.objs obj).mro attr
  match attr with
  | some a =>
    let (s, fa) := _filter_var env fuel s node a
    (s, node, fa)
  | none => (s, node, none)

/-- self._get_class_attribute(node, cls, name, valself): a class is
treated as an instance of its metaclass only when valself denotes the
class itself and the class is not the type type (type(type) == type). -/
def _get_class_attribute (env : Env) (ga : GetAttr) (fuel : Nat) (s : State) (node : Node) (cls : ObjId) (name : AttrName) (valself : Option Binding) : State × Node × Option VarId :=
  let meta : Option ObjId :=
    match valself with
    | none => none
    | some vs =>
      if equivalentTo vs cls = false ∨ cls = env.typeType then none
      else some (s.objs cls).cls
  _get_attribute env ga fuel s node cls meta name valself

/-- self._get_instance_attribute(node, obj, name, valself). -/
def _get_instance_attribute (env : Env) (ga : GetAttr) (fuel : Nat) (s : State) (node : Node) (obj : ObjId) (name : AttrName) (valself : Option Binding) : State × Node × Option VarId :=
  let cls? : Option ObjId :=
    if (s.objs (s.objs obj).cls).fullName = "builtins.type" then none
    else some (s.objs obj).cls
  _get_attribute env ga fuel s node obj cls? name valself

/-- self._get_module_attribute(node, module, name, valself). -/
def _get_module_attribute (env : Env) (ga : GetAttr) (fuel : Nat) (s : State) (node : Node) (module : ObjId) (name : AttrName) (valself : Option Binding) : State × Node × Option VarId :=
  let (s, node, var) := _get_instance_attribute env ga fuel s node module name valself
  if _should_look_for_submodule env s module var = false then (s, node, var)
  else
    match env.getSubmodule s node module name with
    | some sub => (s, node, some sub)
    | none => (s, node, var)

/-- The skip-set construction of `_get_attribute_from_super_instance`:
walk the anchor's MRO from the front, accumulating, stopping at and
including the current class. -/
def buildSkip (s : State) (currentName : String) : List ObjId → List ObjId
  | [] => []
  | p :: rest =>
    if (s.objs p).fullName = currentName then [p]
    else p :: buildSkip s currentName rest

/-- self._get_attribute_from_super_instance(node, obj, name, valself). -/
def _get_attribute_from_super_instance (env : Env) (ga : GetAttr) (fuel : Nat) (s : State) (node : Node) (obj : ObjId) (name : AttrName) (valself : Option Binding) : State × Node × Option VarId :=
  match (s.objs obj).superObj with
  | some so =>
    let superCls := (s.objs obj).superCls
    let soCls := (s.objs so).cls
    let starting :=
      if ((s.objs soCls).fullName == "builtins.type" ||
          (s.objs soCls).kind.isAmbiguousOrEmpty ||
          (s.objs superCls).kind.isAmbiguousOrEmpty) then superCls
      else if (s.objs so).mro.contains superCls then so
      else soCls
    let vs : Binding := ⟨so, [node]⟩
    let skip := buildSkip s (s.objs superCls).fullName (s.objs starting).mro
    _lookup_from_mro_and_handle_descriptors env ga fuel s node starting name (some vs) skip
  | none =>
    _lookup_from_mro_and_handle_descriptors env ga fuel s node env.superType name valself []

/-- The `for o in obj.options` loop of the Union read branch. -/
def union_loop (env : Env) (ga : GetAttr) (node : Node) (name : AttrName) (valself : Option Binding) (ret : VarId) : State → List ObjId → List Node → State × List Node
  | s, [], nodes => (s, nodes)
  | s, o :: rest, nodes =>
    let (s, n2, attr) := ga s node o name valself
    match attr with
    | some a =>
      union_loop env ga node name valself ret (pasteVariable s ret a (some n2)) rest (nodes ++ [n2])
    | none => union_loop env ga node name valself ret s rest nodes

/-- The `for b in param_var.bindings` loop of the TypeParameterInstance
read branch, together with its join and unconstrained-placeholder tail:
a visible alternative with no attribute fails the whole lookup at the
incoming node; otherwise successful branches are joined; otherwise an
unconstrained placeholder is produced. -/
def tpi_loop (env : Env) (ga : GetAttr) (node : Node) (name : AttrName) (valself : Option Binding) : State → List Binding → List VarId → List Node → State × Node × Option VarId
  | s, [], results, nodes =>
    if nodes ≠ [] then
      let n := env.joinNodes nodes
      let (s, v) := join_variables s n results
      (s, n, some v)
    else
      let (s, v) := new_unsolvable env s node
      (s, node, some v)
  | s, b :: rest, results, nodes =>
    let (s, n2, ret) := ga s node b.data name valself
    match ret with
    | none =>
      if b.IsVisible env node then (s, node, none)
      else tpi_loop env ga node name valself s rest results nodes
    | some r => tpi_loop env ga node name valself s rest (results ++ [r]) (nodes ++ [n2])

/-- get_attribute(node, obj, name, valself): the read entry point's
dispatch over the value variants, in source order. -/
def get_attribute (env : Env) : Nat → State → Node → ObjId → AttrName → Option Binding → State × Node × Option VarId
  | 0, s, node, _, _, _ => (s, node, none)
  | f + 1, s, node, objId, name, valself =>
    match env.getSpecial s node objId name valself with
    | some sa => (s, node, some sa)
    | none =>
      let ga : GetAttr := get_attribute env f
      let k := (s.objs objId).kind
      if k.isFunction then
        if name = "__get__" then (s, node, none)
        else _get_instance_attribute env ga f s node objId name valself
      else if k = .ParameterizedClass then
        ga s node (s.objs objId).baseCls name valself
      else if k.isClass then
        _get_class_attribute env ga f s node objId name valself
      else if k = .Overlay then
        _get_module_attribute env ga f s node (env.getModule s objId name) name valself
      else if k = .Module then
        _get_module_attribute env ga f s node objId name valself
      else if k.isSimpleValue then
        _get_instance_attribute env ga f s node objId name valself
      else if k = .Union then
        if name = "__getitem__" then
          let (s, v) := new_unsolvable env s node
          (s, node, some v)
        else
          let (s, ret) := newVar s
          let (s, nodes) := union_loop env ga node name valself ret s (s.objs objId).options []
          if s.vars ret ≠ [] then (s, env.joinNodes nodes, some ret)
          else (s, node, none)
      else if k = .SuperInstance then
        _get_attribute_from_super_instance env ga f s node objId name valself
      else if k = .Super then
        ga s node env.superType name valself
      else if k = .BoundFunction then
        ga s node (s.objs objId).underlying name valself
      else if k = .TypeParameterInstance then
        let pbs := instTypeParamBindings s (s.objs objId).tpiInstance (s.objs objId).tpiName
        if pbs ≠ [] then tpi_loop env ga node name valself s pbs [] []
        else
          let (s, pv) := env.instantiateParam s env.rootNode objId
          tpi_loop env ga node name valself s (s.vars pv) [] []
      else if k = .Empty then (s, node, none)
      else (s, node, none)

/-- The recursive write entry point, threaded through the dispatch as a
callback (it stands for `self.set_attribute` one fuel level down). -/
abbrev SetAttr := State → Node → ObjId → AttrName → VarId → Except String (State × Node)

/-- The per-base condition of the `for baseclass in obj.cls.mro` loop of
`_check_writable`: builtins.object is passed over; otherwise a base grants
the write if it is a SimpleValue defining `__setattr__` or the name, or
declares no slot restriction, or lists the name among its slots. -/
def baseAllowsWrite (s : State) (base : ObjId) (name : AttrName) : Bool :=
  if (s.objs base).fullName == "builtins.object" then false
  else if (s.objs base).kind.isSimpleValue &&
          ((lookupMember s base "__setattr__").isSome || (lookupMember s base name).isSome) then
    true
  else
    match (s.objs base).slots with
    | none => true
    | some sl => sl.contains name

/-- self._check_writable(obj, name): always writable when the class has
no MRO; otherwise some ancestor must grant the write, else the
not-writable error is logged. -/
def _check_writable (s : State) (obj : ObjId) (name : AttrName) : State × Bool :=
  let mro := (s.objs (s.objs obj).cls).mro
  if mro = [] then (s, true)
  else if mro.any (fun b => baseAllowsWrite s b name) then (s, true)
  else ({ s with errors := (obj, name) :: s.errors }, false)

/-- Modelled from the spec: SimpleValue.set_class (external value model;
spec section 4.7 item 3: assigning the change-of-class meta-attribute
"replaces the object's class reference rather than touching member
storage"). -/
def set_class (s : State) (node : Node) (obj : ObjId) (var : VarId) : State × Node :=
  match (s.vars var).map (fun b => b.data) with
  | [] => (s, node)
  | c :: _ => (s.updObj obj (fun ob => { ob with cls := c }), node)

/-- Modelled from the spec: Function.set_function_defaults (external value
model; the write "updates the function's default-argument state"). -/
def set_function_defaults (s : State) (_node : Node) (obj : ObjId) (var : VarId) : State :=
  s.updObj obj (fun ob => { ob with defaults := some var })

/-- self._set_member(node, obj, name, var): load lazy members, special-case
`__class__` and function `__defaults__`, force-load a would-be inherited
value at the root node before a first write, then merge into the existing
variable or store a fresh one. -/
def _set_member (env : Env) (s : State) (node : Node) (obj : ObjId) (name : AttrName) (var : VarId) : State × Node :=
  let s := if (s.objs obj).lazyMembers then env.loadLazyAttr s obj name none else s
  if name = "__class__" then set_class s node obj var
  else if ((s.objs obj).kind == .PyTDFunction || (s.objs obj).kind == .SignedFunction) &&
          name == "__defaults__" then
    (set_function_defaults s node obj var, node)
  else
    let s :=
      if (s.objs obj).kind.isInstance && (lookupMember s obj name).isNone then
        _maybe_load_as_instance_attribute env s env.rootNode obj name
      else s
    match lookupMember s obj name with
    | some v => (pasteVariable s v var (some node), node)
    | none =>
      let (s, nv) := varAssignToNewVar s var node
      (setMemberMap s obj name nv, node)

/-- The update_official_name pass of set_attribute: when the target is the
frame's globals, each written value records the name as official. -/
def officialUpd (s : State) (value : VarId) (name : AttrName) : State :=
  (s.vars value).foldl
    (fun s b => s.updObj b.data (fun ob => { ob with officialName := some name })) s

/-- The `for v in ...data` fan-out of the TypeParameterInstance write
branch (each write starts from the incoming node; resulting nodes are
joined, or the incoming node is kept when there is none). -/
def tpi_set_loop (env : Env) (sa : SetAttr) (node : Node) (name : AttrName) (value : VarId) : State → List ObjId → List Node → Except String (State × Node)
  | s, [], nodes =>
    .ok (s, if nodes ≠ [] then env.joinNodes nodes else node)
  | s, d :: rest, nodes =>
    match sa s node d name value with
    | .error e => .error e
    | .ok (s, n2) => tpi_set_loop env sa node name value s rest (nodes ++ [n2])

/-- The `for option in obj.options` fan-out of the Union write branch
(the node is threaded through sequentially). -/
def union_set_loop (env : Env) (sa : SetAttr) (name : AttrName) (value : VarId) : State → Node → List ObjId → Except String (State × Node)
  | s, node, [] => .ok (s, node)
  | s, node, o :: rest =>
    match sa s node o name value with
    | .error e => .error e
    | .ok (s, node) => union_set_loop env sa name value s node rest

/-- The variant dispatch of set_attribute, in source order; an
unrecognized variant is a definitional error and aborts loudly. -/
def set_attr_dispatch (env : Env) (sa : SetAttr) (s : State) (node : Node) (obj : ObjId) (name : AttrName) (value : VarId) : Except String (State × Node) :=
  let k := (s.objs obj).kind
  if k = .Empty then .ok (s, node)
  else if k = .Module then .ok (s, node)
  else if k = .StaticMethod ∨ k = .ClassMethod then
    sa s node (s.objs obj).method name value
  else if k.isSimpleValue then .ok (_set_member env s node obj name value)
  else if k = .BoundFunction then sa s node (s.objs obj).underlying name value
  else if k = .Unsolvable then .ok (s, node)
  else if k = .Unknown then
    .ok (match lookupMember s obj name with
      | some v => (pasteVariable s v value (some node), node)
      | none =>
        let (s, nv) := varAssignToNewVar s value node
        (setMemberMap s obj name nv, node))
  else if k = .TypeParameterInstance then
    let datas := (instTypeParamBindings s (s.objs obj).tpiInstance (s.objs obj).tpiName).map
      (fun b => b.data)
    tpi_set_loop env sa node name value s datas []
  else if k = .Union then union_set_loop env sa name value s node (s.objs obj).options
  else .error ("NotImplementedError: " ++ k.pyName)

/-- set_attribute(node, obj, name, value): writability check first (a
failed check is a logged no-op), then the official-name pass on the
frame's globals, then the variant dispatch. -/
def set_attribute (env : Env) : Nat → State → Node → ObjId → AttrName → VarId → Except String (State × Node)
  | 0, s, node, _, _, _ => .ok (s, node)
  | f + 1, s, node, obj, name, value =>
    let (s, w) := _check_writable s obj name
    if w = false then .ok (s, node)
    else
      let s := if env.frameGlobals = some obj then officialUpd s value name else s
      set_attr_dispatch env (set_attribute env f) s node obj name value

/-!
Concrete fixtures used by the witnesses and counterexamples below.
Object ids 1-7 are the well-known singletons of the converter; ids 90-99
are markers allocated by the external callbacks; fixture objects start at
10; fixture variables start at 20; fresh variables start at 100.
-/

/-- A concrete environment: nodes reach forward (`n` reaches `m` when
`n ≤ m`), joins take the maximum, and the external callbacks allocate
fresh marker variables. -/
def env0 : Env where
  reach := Nat.ble
  joinNodes := fun ns => ns.foldl Nat.max 0
  rootNode := 0
  objectType := 1
  typeType := 2
  superType := 3
  unsolvable := 4
  emptyObj := 5
  noneObj := 6
  moduleType := 7
  callFunction := fun s n _ _ => let (s, v) := objToVar s 99 n; (s, n, v)
  constantToVar := fun s n _ => objToVar s 98 n
  getSpecial := fun _ _ _ _ _ => none
  loadLazyAttr := fun s _ _ _ => s
  convertAsInstanceAttr := fun s _ _ _ => (s, none)
  propertyGet := fun s _ v _ _ => (s, v)
  propertyCall := fun s n _ => let (s, v) := objToVar s 97 n; (s, n, v)
  initAnnot := fun s n _ => objToVar s 96 n
  initAnnotFormal := fun s n _ _ => objToVar s 95 n
  instantiateParam := fun s n _ => objToVar s 94 n
  getSubmodule := fun _ _ _ _ => none
  mergeClasses := fun _ _ => 0
  getModule := fun _ o _ => o

/-- Assemble a state from association lists of objects and variables. -/
def mkState (os : List (ObjId × Obj)) (vs : List (VarId × List Binding)) : State where
  objs := fun o => (os.lookup o).getD {}
  vars := fun v => (vs.lookup v).getD []
  nextVar := 100

/-- Updating an object's official name leaves every other field of every
object unchanged. -/
theorem updObj_officialName_fields (s : State) (d : ObjId) (nm : AttrName) (o : ObjId) :
    ((State.updObj s d (fun ob => { ob with officialName := some nm })).objs o).kind = (s.objs o).kind ∧
    ((State.updObj s d (fun ob => { ob with officialName := some nm })).objs o).members = (s.objs o).members ∧
    ((State.updObj s d (fun ob => { ob with officialName := some nm })).objs o).defaults = (s.objs o).defaults ∧
    ((State.updObj s d (fun ob => { ob with officialName := some nm })).objs o).lazyMembers = (s.objs o).lazyMembers := by
  by_cases h : o = d <;> simp [State.updObj, upd, h]

/-- The official-name pass touches only official names: the variable
heap, the error log, and every other object field are unchanged. -/
theorem officialUpd_preserve (s : State) (value : VarId) (name : AttrName) :
    (officialUpd s value name).vars = s.vars ∧
    (officialUpd s value name).errors = s.errors ∧
    ∀ o : ObjId,
      ((officialUpd s value name).objs o).kind = (s.objs o).kind ∧
      ((officialUpd s value name).objs o).members = (s.objs o).members ∧
      ((officialUpd s value name).objs o).defaults = (s.objs o).defaults ∧
      ((officialUpd s value name).objs o).lazyMembers = (s.objs o).lazyMembers := by
  unfold officialUpd
  generalize (s.vars value) = L
  induction L generalizing s with
  | nil => exact ⟨rfl, rfl, fun o => ⟨rfl, rfl, rfl, rfl⟩⟩
  | cons b L ih =>
    simp only [List.foldl_cons]
    obtain ⟨h1, h2, h3⟩ :=
      ih (State.updObj s b.data (fun ob => { ob with officialName := some name }))
    refine ⟨h1, h2, fun o => ?_⟩
    obtain ⟨k1, k2, k3, k4⟩ := h3 o
    obtain ⟨m1, m2, m3, m4⟩ := updObj_officialName_fields s b.data name o
    exact ⟨k1.trans m1, k2.trans m2, k3.trans m3, k4.trans m4⟩

/-- The official-name pass preserves member lookups. -/
theorem officialUpd_lookupMember (s : State) (value : VarId) (name : AttrName)
    (o : ObjId) (n : AttrName) :
    lookupMember (officialUpd s value name) o n = lookupMember s o n := by
  unfold lookupMember
  rw [((officialUpd_preserve s value name).2.2 o).2.1]

/-- When the writability check fails, it logs exactly one not-writable
error and reports false. -/
theorem check_writable_false (s : State) (obj : ObjId) (name : AttrName)
    (hmro : (s.objs (s.objs obj).cls).mro ≠ [])
    (hnone : ∀ b ∈ (s.objs (s.objs obj).cls).mro, baseAllowsWrite s b name = false) :
    _check_writable s obj name = ({ s with errors := (obj, name) :: s.errors }, false) := by
  unfold _check_writable
  rw [if_neg hmro, if_neg]
  simp only [List.any_eq_true, not_exists]
  intro b
  rw [not_and]
  intro hb
  simp [hnone b hb]

/-- C3: if the class has a non-empty MRO and no ancestor grants the
write, set_attribute logs the not-writable error, returns the incoming
node, and leaves the object (in particular its member mapping) unchanged. -/
theorem c3_not_writable_is_noop (env : Env) (f : Nat) (s : State) (node : Node)
    (obj : ObjId) (name : AttrName) (value : VarId)
    (hmro : (s.objs (s.objs obj).cls).mro ≠ [])
    (hnone : ∀ b ∈ (s.objs (s.objs obj).cls).mro, baseAllowsWrite s b name = false) :
    set_attribute env (f + 1) s node obj name value =
      .ok ({ s with errors := (obj, name) :: s.errors }, node) ∧
    ({ s with errors := (obj, name) :: s.errors }).objs obj = s.objs obj ∧
    ({ s with errors := (obj, name) :: s.errors }).vars = s.vars := by
  refine ⟨?_, rfl, rfl⟩
  have hcw := check_writable_false s obj name hmro hnone
  simp [set_attribute, hcw]

/-- Fixture for C3: object 10's class 11 has MRO [12]; base 12 declares
slots not containing the written name and no programmatic attribute. -/
def sC3 : State := mkState
  [(10, { kind := .Instance, cls := 11 }),
   (11, { kind := .PyTDClass, mro := [12] }),
   (12, { kind := .PyTDClass, fullName := "C", slots := some ["x"] })]
  [(50, [⟨40, [0]⟩])]

/-- Witness for C3 at a concrete slotted class. -/
theorem c3_witness :
    (sC3.objs (sC3.objs 10).cls).mro ≠ [] ∧
    set_attribute env0 1 sC3 0 10 "y" 50 =
      .ok ({ sC3 with errors := (10, "y") :: sC3.errors }, 0) :=
  ⟨by decide, (c3_not_writable_is_noop env0 0 sC3 0 10 "y" 50 (by decide) (by decide)).1⟩

/-- C9: an object whose class has an empty MRO is always writable: the
check succeeds with no error logged, and the write proceeds to the
variant dispatch. -/
theorem c9_empty_mro_always_writable (env : Env) (f : Nat) (s : State) (node : Node)
    (obj : ObjId) (name : AttrName) (value : VarId)
    (hmro : (s.objs (s.objs obj).cls).mro = []) :
    _check_writable s obj name = (s, true) ∧
    set_attribute env (f + 1) s node obj name value =
      set_attr_dispatch env (set_attribute env f)
        (if env.frameGlobals = some obj then officialUpd s value name else s)
        node obj name value := by
  have hcw : _check_writable s obj name = (s, true) := by
    unfold _check_writable
    rw [if_pos hmro]
  exact ⟨hcw, by simp [set_attribute, hcw]⟩

/-- Fixture for C9: object 10's class 11 has an empty MRO ("Any"-like). -/
def sC9 : State := mkState
  [(10, { kind := .Unknown, cls := 11 }),
   (11, { kind := .Unsolvable })]
  [(50, [⟨40, [0]⟩])]

/-- Witness for C9 at a concrete ambiguous-classed object. -/
theorem c9_witness :
    _check_writable sC9 10 "y" = (sC9, true) ∧
    set_attribute env0 1 sC9 0 10 "y" 50 =
      set_attr_dispatch env0 (set_attribute env0 0)
        (if env0.frameGlobals = some 10 then officialUpd sC9 50 "y" else sC9) 0 10 "y" 50 :=
  c9_empty_mro_always_writable env0 0 sC9 0 10 "y" 50 (by decide)

/-- C5: a writable target whose variant is outside the closed set handled
by the write path makes set_attribute abort loudly with an unrecoverable
error (the read path, by construction, never produces an error). -/
theorem c5_unhandled_variant_aborts (env : Env) (f : Nat) (s : State) (node : Node)
    (obj : ObjId) (name : AttrName) (value : VarId)
    (hw : _check_writable s obj name = (s, true))
    (h1 : (s.objs obj).kind ≠ .Empty) (h2 : (s.objs obj).kind ≠ .Module)
    (h3 : (s.objs obj).kind ≠ .StaticMethod) (h4 : (s.objs obj).kind ≠ .ClassMethod)
    (h5 : (s.objs obj).kind.isSimpleValue = false)
    (h6 : (s.objs obj).kind ≠ .BoundFunction) (h7 : (s.objs obj).kind ≠ .Unsolvable)
    (h8 : (s.objs obj).kind ≠ .Unknown) (h9 : (s.objs obj).kind ≠ .TypeParameterInstance)
    (h10 : (s.objs obj).kind ≠ .Union) :
    set_attribute env (f + 1) s node obj name value =
      .error ("NotImplementedError: " ++ (s.objs obj).kind.pyName) := by
  simp only [set_attribute, hw]
  have hk : ((if env.frameGlobals = some obj then officialUpd s value name else s).objs obj).kind
      = (s.objs obj).kind := by
    split
    · exact ((officialUpd_preserve s value name).2.2 obj).1
    · rfl
  simp [set_attr_dispatch, hk, h1, h2, h3, h4, h5, h6, h7, h8, h9, h10]

/-- Fixture for C5: object 10 is an AnnotationClass-style value (not a
SimpleValue and outside the write dispatch); its class has an empty MRO,
so it is writable. -/
def sC5 : State := mkState
  [(10, { kind := .AnnotClass, cls := 11 }),
   (11, { kind := .Unsolvable })]
  [(50, [⟨40, [0]⟩])]

/-- Witness for C5 at a concrete unhandled variant. -/
theorem c5_witness :
    set_attribute env0 1 sC5 0 10 "x" 50 =
      .error ("NotImplementedError: " ++ (sC5.objs 10).kind.pyName) :=
  c5_unhandled_variant_aborts env0 0 sC5 0 10 "x" 50 rfl (by decide) (by decide)
    (by decide) (by decide) (by decide) (by decide) (by decide) (by decide)
    (by decide) (by decide)

/-- C10: writing `__defaults__` to a PyTDFunction or SignedFunction
updates the function's default-argument state and leaves both its member
mapping and the variable heap unchanged. -/
theorem c10_defaults_write (env : Env) (f : Nat) (s : State) (node : Node)
    (obj : ObjId) (value : VarId)
    (hk : (s.objs obj).kind = .PyTDFunction ∨ (s.objs obj).kind = .SignedFunction)
    (hlazy : (s.objs obj).lazyMembers = false)
    (hw : _check_writable s obj "__defaults__" = (s, true)) :
    ∃ s2, set_attribute env (f + 1) s node obj "__defaults__" value = .ok (s2, node) ∧
      (s2.objs obj).members = (s.objs obj).members ∧
      (s2.objs obj).defaults = some value ∧
      s2.vars = s.vars := by
  simp only [set_attribute, hw]
  by_cases hg : env.frameGlobals = some obj
  case pos =>
    obtain ⟨hv, -, hobjs⟩ := officialUpd_preserve s value "__defaults__"
    obtain ⟨pk, pm, -, pl⟩ := hobjs obj
    refine ⟨set_function_defaults (officialUpd s value "__defaults__") node obj value,
      ?_, ?_, ?_, ?_⟩
    · rcases hk with hk | hk <;>
        simp [hg, set_attr_dispatch, _set_member, pk, hk, pl, hlazy, set_function_defaults,
          Kind.isSimpleValue]
    · simp only [set_function_defaults, State.updObj, upd]
      simp [pm]
    · simp [set_function_defaults, State.updObj, upd]
    · simp only [set_function_defaults, State.updObj]
      exact hv
  case neg =>
    refine ⟨set_function_defaults s node obj value, ?_, ?_, ?_, ?_⟩
    · rcases hk with hk | hk <;>
        simp [hg, set_attr_dispatch, _set_member, hk, hlazy, set_function_defaults,
          Kind.isSimpleValue]
    · simp [set_function_defaults, State.updObj, upd]
    · simp [set_function_defaults, State.updObj, upd]
    · rfl

/-- Fixture for C10: object 10 is a PyTDFunction with an existing member
and no defaults; its class has an empty MRO, so it is writable. -/
def sC10 : State := mkState
  [(10, { kind := .PyTDFunction, cls := 11, members := [("m", 21)] }),
   (11, { kind := .Unsolvable })]
  [(21, [⟨40, [0]⟩]), (50, [⟨41, [0]⟩])]

/-- Witness for C10 at a concrete PyTDFunction. -/
theorem c10_witness :
    ∃ s2, set_attribute env0 1 sC10 0 10 "__defaults__" 50 = .ok (s2, 0) ∧
      (s2.objs 10).members = (sC10.objs 10).members ∧
      (s2.objs 10).defaults = some 50 ∧
      s2.vars = sC10.vars :=
  c10_defaults_write env0 0 sC10 0 10 50 (Or.inl (by decide)) (by decide) rfl

/-- C4 (amended): for a writable SimpleValue target that is not a module,
a name other than `__class__` that is not the function-defaults special
case, and an existing stored Variable, set_attribute pastes the new
value's bindings into that very Variable: the result is the old bindings
followed by the new ones re-assigned at the write node, so every earlier
binding is still present. -/
theorem c4_merge_preserves (env : Env) (f : Nat) (s : State) (node : Node)
    (obj : ObjId) (name : AttrName) (value v : VarId)
    (hk : (s.objs obj).kind.isSimpleValue = true)
    (hkM : (s.objs obj).kind ≠ .Module)
    (hk1 : (s.objs obj).kind ≠ .StaticMethod) (hk2 : (s.objs obj).kind ≠ .ClassMethod)
    (hlazy : (s.objs obj).lazyMembers = false)
    (hname : name ≠ "__class__")
    (hdef : (((s.objs obj).kind == .PyTDFunction || (s.objs obj).kind == .SignedFunction) &&
             name == "__defaults__") = false)
    (hmem : lookupMember s obj name = some v)
    (hw : _check_writable s obj name = (s, true)) :
    ∃ s2, set_attribute env (f + 1) s node obj name value = .ok (s2, node) ∧
      s2.vars v = s.vars v ++ (s.vars value).map (fun b => { b with origins := [node] }) ∧
      ∀ b ∈ s.vars v, b ∈ s2.vars v := by
  have hkE : (s.objs obj).kind ≠ .Empty := by
    intro h; rw [h] at hk; exact absurd hk (by decide)
  simp only [set_attribute, hw]
  by_cases hg : env.frameGlobals = some obj
  case pos =>
    obtain ⟨hv, -, hobjs⟩ := officialUpd_preserve s value name
    obtain ⟨pk, pm, -, pl⟩ := hobjs obj
    have hlk := officialUpd_lookupMember s value name obj name
    refine ⟨pasteVariable (officialUpd s value name) v value (some node), ?_, ?_, ?_⟩
    · simp [hg, set_attr_dispatch, pk, hkE, hkM, hk1, hk2, hk, _set_member, pl, hlazy,
        hname, hdef, hlk, hmem]
    · simp [pasteVariable, State.setVar, upd, hv]
    · intro b hb
      simp [pasteVariable, State.setVar, upd, hv, List.mem_append]
      exact Or.inl hb
  case neg =>
    refine ⟨pasteVariable s v value (some node), ?_, ?_, ?_⟩
    · simp [hg, set_attr_dispatch, hkE, hkM, hk1, hk2, hk, _set_member, hlazy,
        hname, hdef, hmem]
    · simp [pasteVariable, State.setVar, upd]
    · intro b hb
      simp [pasteVariable, State.setVar, upd, List.mem_append]
      exact Or.inl hb

/-- Fixture for C4's merge witness: instance 10 already stores "x". -/
def sC4w : State := mkState
  [(10, { kind := .Instance, cls := 11, members := [("x", 20)] }),
   (11, { kind := .Unsolvable })]
  [(20, [⟨30, [0]⟩]), (50, [⟨31, [1]⟩])]

/-- Witness for C4 at a concrete second write of the same name. -/
theorem c4_witness :
    ∃ s2, set_attribute env0 1 sC4w 1 10 "x" 50 = .ok (s2, 1) ∧
      s2.vars 20 = sC4w.vars 20 ++ (sC4w.vars 50).map (fun b => { b with origins := [1] }) ∧
      ∀ b ∈ sC4w.vars 20, b ∈ s2.vars 20 :=
  c4_merge_preserves env0 0 sC4w 1 10 "x" 50 20 (by decide) (by decide) (by decide)
    (by decide) (by decide) (by decide) (by decide) (by decide) rfl

/-- Fixture for C4's counterexample: instance 10 already stores a
Variable under the name `__class__`. -/
def sC4 : State := mkState
  [(10, { kind := .Instance, cls := 11, members := [("__class__", 20)] }),
   (11, { kind := .Unsolvable })]
  [(20, [⟨30, [0]⟩]), (50, [⟨31, [0]⟩])]

/-- Counterexample to C4 as stated: writing `__class__` while a Variable
is already stored under that name does not merge the new value's bindings
into it — the write is routed to set_class and the stored Variable is
left with only its old binding. -/
theorem c4_counterexample :
    lookupMember sC4 10 "__class__" = some 20 ∧
    sC4.vars 20 = [⟨30, [0]⟩] ∧
    sC4.vars 50 = [⟨31, [0]⟩] ∧
    set_attribute env0 1 sC4 0 10 "__class__" 50 = .ok (set_class sC4 0 10 50) ∧
    (set_class sC4 0 10 50).1.vars 20 = [⟨30, [0]⟩] ∧
    lookupMember (set_class sC4 0 10 50).1 10 "__class__" = some 20 :=
  ⟨by decide, by decide, by decide, rfl, by decide, by decide⟩

/-- C8 (amended): a Variable with at least one binding, all visible at
the node and none a TypeParameterInstance, is returned by _filter_var as
the very same Variable (same identity, state untouched); filtering such
an input is idempotent. -/
theorem c8_filter_identity (env : Env) (fuel : Nat) (s : State) (node : Node) (var : VarId)
    (hne : s.vars var ≠ [])
    (hvis : ∀ b ∈ s.vars var, b.IsVisible env node = true)
    (htpi : ∀ b ∈ s.vars var, ((s.objs b.data).kind == .TypeParameterInstance) = false) :
    _filter_var env fuel s node var = (s, some var) := by
  have hfilter : (s.vars var).filter (fun b => b.IsVisible env node) = s.vars var :=
    List.filter_eq_self.mpr hvis
  have hany : (s.vars var).any (fun b => (s.objs b.data).kind == .TypeParameterInstance) = false := by
    rw [List.any_eq_false]
    intro b hb
    simp [htpi b hb]
  simp only [_filter_var, hfilter, hany]
  rw [if_neg hne, if_pos (by simp)]

/-- Fixture for C8: variable 20 has one visible non-generic binding;
variable 21 is empty. -/
def sC8 : State := mkState [] [(20, [⟨40, [0]⟩])]

/-- Witness for C8 at a concrete fully-visible variable. -/
theorem c8_witness :
    sC8.vars 20 ≠ [] ∧ _filter_var env0 0 sC8 0 20 = (sC8, some 20) :=
  ⟨by decide, c8_filter_identity env0 0 sC8 0 20 (by decide) (by decide) (by decide)⟩

/-- Counterexample to C8 as stated: a Variable with no bindings satisfies
"all bindings visible, none generic" vacuously, yet _filter_var returns
absent, not the same Variable. -/
theorem c8_counterexample :
    (∀ b ∈ sC8.vars 21, b.IsVisible env0 0 = true) ∧
    (∀ b ∈ sC8.vars 21, (sC8.objs b.data).kind ≠ .TypeParameterInstance) ∧
    (_filter_var env0 0 sC8 0 21).2 = none :=
  ⟨by decide, by decide, by decide⟩

/-- C7 (amended): when selfBinding denotes the class object itself, the
class is treated as an instance of its own metaclass — the metaclass is
searched — except when the class itself is the universal root type
(because type(type) == type), in which case the metaclass search is
skipped. -/
theorem c7_metaclass_selection (env : Env) (ga : GetAttr) (fuel : Nat) (s : State)
    (node : Node) (cls : ObjId) (name : AttrName) (vs : Binding)
    (hself : equivalentTo vs cls = true) :
    _get_class_attribute env ga fuel s node cls name (some vs) =
      if cls = env.typeType then
        _get_attribute env ga fuel s node cls none name (some vs)
      else
        _get_attribute env ga fuel s node cls (some (s.objs cls).cls) name (some vs) := by
  by_cases h : cls = env.typeType
  · simp [_get_class_attribute, hself, h]
  · simp [_get_class_attribute, hself, h]

/-- Fixture for C7: class 10's metaclass is `builtins.type` (the root
metaclass, object 2 of env0), which alone defines "mro". -/
def sC7 : State := mkState
  [(2, { kind := .PyTDClass, cls := 2, fullName := "builtins.type", mro := [2],
         members := [("mro", 21)] }),
   (10, { kind := .PyTDClass, cls := 2, fullName := "C", mro := [10] })]
  [(21, [⟨42, [0]⟩])]

/-- Witness for C7 at a concrete class read with selfBinding = the class. -/
theorem c7_witness :
    _get_class_attribute env0 (get_attribute env0 2) 3 sC7 0 10 "mro" (some ⟨10, [0]⟩) =
      if (10 : ObjId) = env0.typeType then
        _get_attribute env0 (get_attribute env0 2) 3 sC7 0 10 none "mro" (some ⟨10, [0]⟩)
      else
        _get_attribute env0 (get_attribute env0 2) 3 sC7 0 10 (some (sC7.objs 10).cls) "mro"
          (some ⟨10, [0]⟩) :=
  c7_metaclass_selection env0 (get_attribute env0 2) 3 sC7 0 10 "mro" ⟨10, [0]⟩ (by decide)

/-- Counterexample to C7 as stated: class 10's metaclass is the universal
root type, yet reading "mro" on the class object itself does search the
metaclass and returns its attribute (value 42); the claim would have the
metaclass search skipped in this situation, leaving the attribute absent. -/
theorem c7_counterexample :
    (sC7.objs 10).cls = env0.typeType ∧
    lookupMember sC7 10 "mro" = none ∧
    (let r := get_attribute env0 6 sC7 0 10 "mro" (some ⟨10, [0]⟩)
     r.2.2.isSome ∧ (r.1.vars (r.2.2.getD 0)).map (fun b => b.data) = [42]) :=
  ⟨by decide, by decide, by decide⟩

/-- C2 (amended): the MRO walk stops at the first class outside the skip
set whose retrieval (special attribute, or member storage filtered by
visibility at the node) yields a variable with at least one binding: the
walk's result is the same whatever classes follow it in the MRO.  A class
that defines the name but yields zero visible bindings is passed over
instead (see the counterexample). -/
theorem c2_first_visible_definer_stops (env : Env) (ga : GetAttr) (fuel : Nat)
    (cls : ObjId) (name : AttrName) (valself : Option Binding) (skip : List ObjId)
    (ret : VarId) (s : State) (node : Node) (base : ObjId) (post : List ObjId)
    (hskip : skip.contains base = false)
    (hspec : env.getSpecial s node base name valself = none)
    (s1 : State) (n1 : Node) (v : VarId)
    (hflat : _get_attribute_flat env ga fuel s node base name valself = (s1, n1, some v))
    (hne : s1.vars v ≠ []) :
    lookup_from_mro_loop env ga fuel cls name valself skip ret s node (base :: post) =
      lookup_from_mro_loop env ga fuel cls name valself skip ret s node [base] := by
  simp only [lookup_from_mro_loop, hskip, hspec, hflat, Bool.false_eq_true, if_false]
  rw [if_neg hne, if_neg hne]

/-- Fixture for C2: class 10's MRO is [11, 12]; class 11 defines "x" with
a binding whose origin (node 5) is not visible at node 0; class 12
defines "x" visibly at node 0. -/
def sC2 : State := mkState
  [(10, { kind := .PyTDClass, fullName := "D", mro := [11, 12] }),
   (11, { kind := .PyTDClass, fullName := "B1", members := [("x", 21)] }),
   (12, { kind := .PyTDClass, fullName := "B2", members := [("x", 22)] })]
  [(21, [⟨41, [5]⟩]), (22, [⟨42, [0]⟩])]

/-- Witness for C2 at a concrete first-visible definer (class 12): the
walk over [12, 999] equals the walk over [12] alone. -/
theorem c2_witness :
    lookup_from_mro_loop env0 (get_attribute env0 1) 2 10 "x" none [] 60 sC2 0 [12, 999] =
      lookup_from_mro_loop env0 (get_attribute env0 1) 2 10 "x" none [] 60 sC2 0 [12] :=
  c2_first_visible_definer_stops env0 (get_attribute env0 1) 2 10 "x" none [] 60 sC2 0 12 [999]
    (by decide) rfl sC2 0 22 rfl (by decide)

/-- Counterexample to C2 as stated: class 11, first in the MRO, defines
"x" (a member with a binding), but that binding is not visible at node 0;
the walk does not stop there — class 12, later in the MRO, supplies the
result (value 42). -/
theorem c2_counterexample :
    lookupMember sC2 11 "x" = some 21 ∧
    sC2.vars 21 ≠ [] ∧
    visibleBindings env0 sC2 21 0 = [] ∧
    (let r := _lookup_from_mro env0 (get_attribute env0 1) 2 sC2 0 10 "x" none []
     (r.1.vars r.2).map (fun b => b.data) = [42]) :=
  ⟨by decide, by decide, by decide, by decide⟩

/-- C1 (amended): with selfBinding present (and not a module), for a
non-dunder attribute name and an MRO whose `__getattribute__` lookup
outside the universal root object type yields at least one binding, the
read is routed through the hook: the result is the hook call's return
value (passed, like every read result, through the declared-annotation
pass and visibility filtering), and the object's own member storage is
never consulted. -/
theorem c1_hook_intercepts (env : Env) (ga : GetAttr) (fuel : Nat) (s : State) (node : Node)
    (obj c : ObjId) (name : AttrName) (vs : Binding)
    (hmod : ((s.objs vs.data).kind == .Module) = false)
    (hcomp : computable name = true)
    (s1 : State) (hv : VarId)
    (hlk : _lookup_from_mro env ga fuel s node c "__getattribute__" (some vs) [env.objectType]
      = (s1, hv))
    (hne : s1.vars hv ≠ []) :
    _get_attribute env ga fuel s node obj (some c) name (some vs) =
      (let (s2, nameVar) := env.constantToVar s1 node name
       let (s3, n2, rv) := env.callFunction s2 node hv [nameVar]
       let (s4, attr) := annot_loop env s3 n2 name (some vs) ((s3.objs obj).mro) (some rv)
       match attr with
       | some a =>
         let (s5, fa) := _filter_var env fuel s4 n2 a
         (s5, n2, fa)
       | none => (s4, n2, none)) := by
  have hcond : (!((s.objs vs.data).kind == .Module) && computable name) = true := by
    rw [hmod, hcomp]; rfl
  unfold _get_attribute
  simp only [_get_attribute_computed, hcond, if_true, hlk]
  rw [if_pos hne]

/-- Fixture for C1: instance 10's class 11 defines `__getattribute__`
(variable 23, visible); the instance also stores the members "color"
(variable 25) and "__str__" (variable 26) in ordinary storage. -/
def sC1 : State := mkState
  [(10, { kind := .Instance, cls := 11, members := [("color", 25), ("__str__", 26)] }),
   (11, { kind := .PyTDClass, fullName := "H", mro := [11],
          members := [("__getattribute__", 23)] })]
  [(23, [⟨45, [0]⟩]), (25, [⟨46, [0]⟩]), (26, [⟨47, [0]⟩])]

/-- Witness for C1 at a concrete hooked read of the non-dunder name
"color", which is also present in ordinary storage. -/
theorem c1_witness :
    ((_lookup_from_mro env0 (get_attribute env0 1) 3 sC1 0 11 "__getattribute__"
        (some ⟨10, [0]⟩) [env0.objectType]).1.vars
      (_lookup_from_mro env0 (get_attribute env0 1) 3 sC1 0 11 "__getattribute__"
        (some ⟨10, [0]⟩) [env0.objectType]).2 ≠ []) ∧
    _get_attribute env0 (get_attribute env0 1) 3 sC1 0 10 (some 11) "color" (some ⟨10, [0]⟩) =
      (let (s2, nameVar) := env0.constantToVar
        (_lookup_from_mro env0 (get_attribute env0 1) 3 sC1 0 11 "__getattribute__"
          (some ⟨10, [0]⟩) [env0.objectType]).1 0 "color"
       let (s3, n2, rv) := env0.callFunction s2 0
        (_lookup_from_mro env0 (get_attribute env0 1) 3 sC1 0 11 "__getattribute__"
          (some ⟨10, [0]⟩) [env0.objectType]).2 [nameVar]
       let (s4, attr) := annot_loop env0 s3 n2 "color" (some ⟨10, [0]⟩) ((s3.objs 10).mro) (some rv)
       match attr with
       | some a =>
         let (s5, fa) := _filter_var env0 3 s4 n2 a
         (s5, n2, fa)
       | none => (s4, n2, none)) :=
  ⟨by decide,
   c1_hook_intercepts env0 (get_attribute env0 1) 3 sC1 0 10 11 "color" ⟨10, [0]⟩
     (by decide) (by decide) _ _ rfl (by decide)⟩

/-- Counterexample to C1 as stated: class 11 defines `__getattribute__`
in the MRO with a visible binding, and the dunder name `__str__` is
present in ordinary storage; yet the read returns the stored member
variable 26 with the state untouched — the hook is never invoked (an
invocation would have allocated fresh variables and returned the
call-result marker), so not every read is routed through the hook. -/
theorem c1_counterexample :
    lookupMember sC1 11 "__getattribute__" = some 23 ∧
    sC1.vars 23 ≠ [] ∧
    lookupMember sC1 10 "__str__" = some 26 ∧
    get_attribute env0 4 sC1 0 10 "__str__" (some ⟨10, [0]⟩) = (sC1, 0, some 26) :=
  ⟨by decide, by decide, by decide, rfl⟩

/-- In the TypeParameterInstance read loop, when the recursive reads are
state- and node-invariant, any visibly failing alternative makes the
whole loop return absent at the incoming node, whatever was accumulated. -/
theorem tpi_loop_abort (env : Env) (ga : GetAttr) (node : Node) (name : AttrName)
    (valself : Option Binding) (s : State) (res : ObjId → Option VarId) :
    ∀ bs : List Binding,
      (∀ b ∈ bs, ga s node b.data name valself = (s, node, res b.data)) →
      (∃ b ∈ bs, res b.data = none ∧ b.IsVisible env node = true) →
      ∀ results nodes, tpi_loop env ga node name valself s bs results nodes = (s, node, none)
  | [], _, hex => by simp at hex
  | b :: rest, hres, hex => by
    intro results nodes
    have hb := hres b (List.mem_cons_self b rest)
    simp only [tpi_loop, hb]
    cases hrb : res b.data with
    | none =>
      by_cases hvb : b.IsVisible env node = true
      · simp [hvb]
      · have hex' : ∃ b ∈ rest, res b.data = none ∧ b.IsVisible env node = true := by
          rcases hex with ⟨b', hb', hr', hv'⟩
          rcases List.mem_cons.mp hb' with h | hmem
          · subst h; exact absurd hv' hvb
          · exact ⟨b', hmem, hr', hv'⟩
        rw [if_neg hvb]
        exact tpi_loop_abort env ga node name valself s res rest
          (fun x hx => hres x (List.mem_cons_of_mem _ hx)) hex' results nodes
    | some r =>
      have hex' : ∃ b ∈ rest, res b.data = none ∧ b.IsVisible env node = true := by
        rcases hex with ⟨b', hb', hr', hv'⟩
        rcases List.mem_cons.mp hb' with h | hmem
        · subst h; rw [hrb] at hr'; exact absurd hr' (by simp)
        · exact ⟨b', hmem, hr', hv'⟩
      exact tpi_loop_abort env ga node name valself s res rest
        (fun x hx => hres x (List.mem_cons_of_mem _ hx)) hex' (results ++ [r]) (nodes ++ [node])

/-- In the TypeParameterInstance read loop, when the recursive reads are
state- and node-invariant and no alternative fails visibly, the loop
reduces to its final join-or-placeholder step over the accumulated
successful results. -/
theorem tpi_loop_accum (env : Env) (ga : GetAttr) (node : Node) (name : AttrName)
    (valself : Option Binding) (s : State) (res : ObjId → Option VarId) :
    ∀ bs : List Binding,
      (∀ b ∈ bs, ga s node b.data name valself = (s, node, res b.data)) →
      (∀ b ∈ bs, res b.data = none → b.IsVisible env node = false) →
      ∀ results nodes,
        tpi_loop env ga node name valself s bs results nodes =
          tpi_loop env ga node name valself s []
            (results ++ bs.filterMap (fun b => res b.data))
            (nodes ++ (bs.filter (fun b => (res b.data).isSome)).map (fun _ => node))
  | [], _, _ => by intro results nodes; simp
  | b :: rest, hres, hnv => by
    intro results nodes
    have hb := hres b (List.mem_cons_self b rest)
    simp only [tpi_loop, hb]
    cases hrb : res b.data with
    | none =>
      have hinv : b.IsVisible env node = false := hnv b (List.mem_cons_self b rest) hrb
      have e1 : List.filterMap (fun b => res b.data) (b :: rest)
          = List.filterMap (fun b => res b.data) rest := by
        simp [List.filterMap_cons, hrb]
      have e2 : List.filter (fun b => (res b.data).isSome) (b :: rest)
          = List.filter (fun b => (res b.data).isSome) rest := by
        simp [List.filter_cons, hrb]
      rw [if_neg (by simp [hinv]), e1, e2]
      exact tpi_loop_accum env ga node name valself s res rest
        (fun x hx => hres x (List.mem_cons_of_mem _ hx))
        (fun x hx => hnv x (List.mem_cons_of_mem _ hx)) results nodes
    | some r =>
      have e1 : List.filterMap (fun b => res b.data) (b :: rest)
          = r :: List.filterMap (fun b => res b.data) rest := by
        simp [List.filterMap_cons, hrb]
      have e2 : List.filter (fun b => (res b.data).isSome) (b :: rest)
          = b :: List.filter (fun b => (res b.data).isSome) rest := by
        simp [List.filter_cons, hrb]
      rw [e1, e2]
      show tpi_loop env ga node name valself s rest (results ++ [r]) (nodes ++ [node]) = _
      rw [tpi_loop_accum env ga node name valself s res rest
        (fun x hx => hres x (List.mem_cons_of_mem _ hx))
        (fun x hx => hnv x (List.mem_cons_of_mem _ hx)) (results ++ [r]) (nodes ++ [node])]
      rw [List.append_assoc, List.append_assoc]
      rfl

/-- C6: a read on a TypeParameterInstance whose alternatives' reads are
state- and node-invariant follows the spec's three cases: a visible
alternative yielding no attribute makes the whole lookup absent at the
unchanged node; otherwise, if some alternative yields an attribute, the
successful branches' nodes and results are joined; and if no alternative
yields anything, an unconstrained placeholder is returned. -/
theorem c6_tpi_read (env : Env) (f : Nat) (s : State) (node : Node) (obj : ObjId)
    (name : AttrName) (valself : Option Binding) (res : ObjId → Option VarId)
    (bs : List Binding)
    (hk : (s.objs obj).kind = .TypeParameterInstance)
    (hspec : env.getSpecial s node obj name valself = none)
    (hbs : instTypeParamBindings s (s.objs obj).tpiInstance (s.objs obj).tpiName = bs)
    (hbsne : bs ≠ [])
    (hres : ∀ b ∈ bs, get_attribute env f s node b.data name valself = (s, node, res b.data)) :
    ((∃ b ∈ bs, res b.data = none ∧ b.IsVisible env node = true) →
       get_attribute env (f + 1) s node obj name valself = (s, node, none)) ∧
    ((∀ b ∈ bs, res b.data = none → b.IsVisible env node = false) →
       (bs.filterMap (fun b => res b.data) ≠ [] →
          get_attribute env (f + 1) s node obj name valself =
            (let ns := (bs.filter (fun b => (res b.data).isSome)).map (fun _ => node)
             let sv := join_variables s (env.joinNodes ns) (bs.filterMap (fun b => res b.data))
             (sv.1, env.joinNodes ns, some sv.2))) ∧
       (bs.filterMap (fun b => res b.data) = [] →
          get_attribute env (f + 1) s node obj name valself =
            ((new_unsolvable env s node).1, node, some (new_unsolvable env s node).2))) := by
  have entry : get_attribute env (f + 1) s node obj name valself =
      tpi_loop env (get_attribute env f) node name valself s bs [] [] := by
    simp only [get_attribute, hspec]
    simp [hk, hbs, hbsne, Kind.isFunction, Kind.isClass, Kind.isSimpleValue]
  refine ⟨?_, ?_⟩
  · intro hex
    rw [entry]
    exact tpi_loop_abort env (get_attribute env f) node name valself s res bs hres hex [] []
  · intro hnv
    have acc := tpi_loop_accum env (get_attribute env f) node name valself s res bs hres hnv [] []
    refine ⟨?_, ?_⟩
    · intro hsucc
      rw [entry, acc]
      have hnodes : ((bs.filter (fun b => (res b.data).isSome)).map
          (fun _ => node) : List Node) ≠ [] := by
        intro hmapnil
        rw [List.map_eq_nil_iff] at hmapnil
        rw [List.filter_eq_nil_iff] at hmapnil
        apply hsucc
        rw [List.filterMap_eq_nil_iff]
        intro a ha
        have := hmapnil a ha
        simpa using this
      simp only [tpi_loop, List.nil_append]
      rw [if_pos hnodes]
    · intro hempty
      have hfilter : (bs.filter (fun b => (res b.data).isSome)) = [] := by
        rw [List.filter_eq_nil_iff]
        intro a ha
        have := List.filterMap_eq_nil_iff.mp hempty a ha
        simp [this]
      rw [entry, acc]
      simp only [tpi_loop, List.nil_append, hempty, hfilter, List.map_nil]
      simp

/-- Fixture for C6: object 10 is a TypeParameterInstance for parameter
"T" of instance 12, whose current binding for "T" is the Empty value 5,
visible at node 0 (and Empty yields no attribute). -/
def sC6 : State := mkState
  [(10, { kind := .TypeParameterInstance, cls := 11, tpiInstance := 12, tpiName := "T" }),
   (12, { kind := .Instance, instParams := [("T", 24)] })]
  [(24, [⟨5, [0]⟩])]

/-- Witness for C6 at a concrete visibly-failing alternative. -/
theorem c6_witness :
    instTypeParamBindings sC6 (sC6.objs 10).tpiInstance (sC6.objs 10).tpiName = [⟨5, [0]⟩] ∧
    get_attribute env0 2 sC6 0 10 "attr" none = (sC6, 0, none) :=
  ⟨by decide,
   (c6_tpi_read env0 1 sC6 0 10 "attr" none (fun _ => none) [⟨5, [0]⟩]
      (by decide) rfl (by decide) (by decide)
      (fun b hb => by
        have hb5 : b = (⟨5, [0]⟩ : Binding) := by simpa using hb
        subst hb5; rfl)).1
     ⟨⟨5, [0]⟩, by simp, rfl, by decide⟩⟩

end PytypeAttr
